import Mathlib

/-
Verification of the SocketLabs node client (socketlabsClient.js) against its
natural-language specification.

The repository ships only the facade (src/socketlabsClient.js).  The modules it
requires (core/sendValidator, core/injectionRequestFactory, sendResponse,
sendResultEnum) are not present in the sources, so their behaviour is modelled
from the spec, each such definition marked with a doc comment starting
`Modelled from the spec:`.  The facade itself (constructor and `send`) is
embedded directly from the JavaScript source.
-/

namespace SocketLabs

/-- The closed result-code enumeration shared across validation and response
parsing (sendResultEnum; the full list is given in the spec's error-handling
section). -/
inductive SendResult
  | Success
  | Warning
  | InvalidServerId
  | InvalidApiKey
  | InvalidAuthentication
  | AccountDisabled
  | EmailAddressValidationFailed
  | RecipientValidationFailed
  | MessageValidationFailed
  | AttachmentValidationFailed
  | TooManyRecipients
  | ServerValidationFailed
  | InternalError
  | UnknownError
  deriving DecidableEq, Repr

/-- An email address: required address string plus optional friendly name. -/
structure EmailAddress where
  emailAddress : String
  friendlyName : Option String := none
  deriving DecidableEq, Repr

/-- Modelled from the spec: an email address "must look like a valid address".
We model this minimally as: non-empty and containing an at-sign. -/
def emailValid (e : EmailAddress) : Bool :=
  decide (e.emailAddress ≠ "") && e.emailAddress.data.contains '@'

/-- A single named substitution value used in bulk sends. -/
structure MergeData where
  field : String
  value : String
  deriving DecidableEq, Repr

/-- A single custom message header. -/
structure CustomHeader where
  name : String
  value : String
  deriving DecidableEq, Repr

/-- A file attachment; content is modelled as raw bytes. -/
structure Attachment where
  name : String
  mimeType : String
  content : List Nat
  deriving DecidableEq, Repr

/-- A bulk recipient: an email address plus its per-recipient merge data. -/
structure BulkRecipient where
  email : EmailAddress
  mergeData : List MergeData
  deriving DecidableEq, Repr

/-- A basic (single) message.  `fromAddress` stands for the source's `from`
field (`from` is a reserved word in Lean). -/
structure BasicMessage where
  fromAddress : Option EmailAddress := none
  replyTo : Option EmailAddress := none
  subject : String := ""
  toRecipients : List EmailAddress := []
  cc : List EmailAddress := []
  bcc : List EmailAddress := []
  textBody : String := ""
  htmlBody : String := ""
  apiTemplate : Option Int := none
  attachments : List Attachment := []
  customHeaders : List CustomHeader := []
  messageId : String := ""
  mailingId : String := ""
  charSet : String := ""
  deriving DecidableEq, Repr

/-- A bulk message: like BasicMessage but `to` is a list of BulkRecipient
(no cc/bcc) plus optional global merge data. -/
structure BulkMessage where
  fromAddress : Option EmailAddress := none
  replyTo : Option EmailAddress := none
  subject : String := ""
  toRecipients : List BulkRecipient := []
  textBody : String := ""
  htmlBody : String := ""
  apiTemplate : Option Int := none
  attachments : List Attachment := []
  customHeaders : List CustomHeader := []
  messageId : String := ""
  mailingId : String := ""
  charSet : String := ""
  globalMergeData : List MergeData := []
  deriving DecidableEq, Repr

/-- The messageType discriminator makes message data a tagged union of the two
shapes. -/
inductive MessageData
  | basic (m : BasicMessage)
  | bulk (m : BulkMessage)
  deriving DecidableEq, Repr

/-- The structured outcome used both for validation results and parsed send
responses (sendResponse): a result code, an optional human-readable message,
and on success a transaction receipt and per-message results (entries opaque
here). -/
structure SendResponse where
  result : SendResult
  responseMessage : Option String := none
  transactionReceipt : Option String := none
  messageResults : List String := []
  deriving DecidableEq, Repr

/-- Modelled from the spec: core/sendValidator.validateCredentials is not in
the sources.  Fails with InvalidServerId when serverId is missing, non-numeric,
or ≤ 0 (missing-or-non-numeric is modelled as `none`); fails with InvalidApiKey
when apiKey is missing or empty; otherwise succeeds. -/
def validateCredentials (serverId : Option Int) (apiKey : Option String) : SendResponse :=
  match serverId with
  | none => { result := SendResult.InvalidServerId }
  | some sid =>
    if sid ≤ 0 then { result := SendResult.InvalidServerId }
    else
      match apiKey with
      | none => { result := SendResult.InvalidApiKey }
      | some k =>
        if k = "" then { result := SendResult.InvalidApiKey }
        else { result := SendResult.Success }

/-- Modelled from the spec: the From address must be present and well-formed. -/
def fromAddressValid : Option EmailAddress → Bool
  | none => false
  | some e => emailValid e

/-- Modelled from the spec: validation of a basic message, checks in the order
the spec lists them, short-circuiting on the first failure: From
absent/malformed, then the recipient list (empty, malformed entry, or count
over the configurable maximum), then Subject/body, then attachments. -/
def validateBasicMessage (maxRecipients : Nat) (m : BasicMessage) : SendResponse :=
  if !(fromAddressValid m.fromAddress) then
    { result := SendResult.EmailAddressValidationFailed }
  else if m.toRecipients.isEmpty || m.toRecipients.any (fun e => !(emailValid e)) || decide (m.toRecipients.length > maxRecipients) then
    { result := SendResult.RecipientValidationFailed }
  else if m.subject = "" || (m.textBody = "" && m.htmlBody = "") then
    { result := SendResult.MessageValidationFailed }
  else if m.attachments.any (fun a => a.name = "" || a.content.isEmpty) then
    { result := SendResult.AttachmentValidationFailed }
  else { result := SendResult.Success }

/-- Modelled from the spec: validation of a bulk message, same rule order as
the basic shape with recipients drawn from the BulkRecipient list. -/
def validateBulkMessage (maxRecipients : Nat) (m : BulkMessage) : SendResponse :=
  if !(fromAddressValid m.fromAddress) then
    { result := SendResult.EmailAddressValidationFailed }
  else if m.toRecipients.isEmpty || m.toRecipients.any (fun r => !(emailValid r.email)) || decide (m.toRecipients.length > maxRecipients) then
    { result := SendResult.RecipientValidationFailed }
  else if m.subject = "" || (m.textBody = "" && m.htmlBody = "") then
    { result := SendResult.MessageValidationFailed }
  else if m.attachments.any (fun a => a.name = "" || a.content.isEmpty) then
    { result := SendResult.AttachmentValidationFailed }
  else { result := SendResult.Success }

/-- Modelled from the spec: core/sendValidator.validateMessage dispatches on
the message's discriminator. -/
def validateMessage (maxRecipients : Nat) : MessageData → SendResponse
  | MessageData.basic m => validateBasicMessage maxRecipients m
  | MessageData.bulk m => validateBulkMessage maxRecipients m

/-- A serialized attachment in the wire schema: base64 content.  Base64 is
modelled abstractly as the byte list it encodes (injective, so losslessness is
preserved). -/
structure WireAttachment where
  name : String
  contentType : String
  content : List Nat
  deriving DecidableEq, Repr

/-- The wire-JSON object matching the remote API schema (the request factory's
output).  `toEntries` is the wire `to` array; for bulk sends `mergeData` is the
per-recipient array aligned with `to` and `globalMergeData` the top-level
block. -/
structure WireObject where
  subject : String := ""
  fromAddress : Option EmailAddress := none
  replyTo : Option EmailAddress := none
  toEntries : List EmailAddress := []
  cc : List EmailAddress := []
  bcc : List EmailAddress := []
  textBody : String := ""
  htmlBody : String := ""
  apiTemplate : Option Int := none
  customHeaders : List CustomHeader := []
  attachments : List WireAttachment := []
  mailingId : String := ""
  messageId : String := ""
  charSet : String := ""
  mergeData : List (List MergeData) := []
  globalMergeData : List MergeData := []
  deriving DecidableEq, Repr

/-- Modelled from the spec: serialization of one attachment for the wire
(content base64-encoded; base64 modelled abstractly). -/
def serializeAttachment (a : Attachment) : WireAttachment :=
  { name := a.name, contentType := a.mimeType, content := a.content }

/-- Modelled from the spec: the wire object built from a valid basic message. -/
def buildBasicWire (m : BasicMessage) : WireObject :=
  { subject := m.subject
    fromAddress := m.fromAddress
    replyTo := m.replyTo
    toEntries := m.toRecipients
    cc := m.cc
    bcc := m.bcc
    textBody := m.textBody
    htmlBody := m.htmlBody
    apiTemplate := m.apiTemplate
    customHeaders := m.customHeaders
    attachments := m.attachments.map serializeAttachment
    mailingId := m.mailingId
    messageId := m.messageId
    charSet := m.charSet }

/-- Modelled from the spec: the wire object built from a valid bulk message;
each recipient's merge-data list is attached positionally to its `to` entry via
the top-level `mergeData` array, and global merge data is a separate top-level
block. -/
def buildBulkWire (m : BulkMessage) : WireObject :=
  { subject := m.subject
    fromAddress := m.fromAddress
    replyTo := m.replyTo
    toEntries := m.toRecipients.map BulkRecipient.email
    textBody := m.textBody
    htmlBody := m.htmlBody
    apiTemplate := m.apiTemplate
    customHeaders := m.customHeaders
    attachments := m.attachments.map serializeAttachment
    mailingId := m.mailingId
    messageId := m.messageId
    charSet := m.charSet
    mergeData := m.toRecipients.map BulkRecipient.mergeData
    globalMergeData := m.globalMergeData }

/-- Modelled from the spec: core/injectionRequestFactory.generateRequest is not
in the sources.  It checks the message shape (rejecting with a structured
error identical in shape to the validator's result) and produces the
wire-schema object; the async resolution is modelled as Except. -/
def generateRequest (maxRecipients : Nat) : MessageData → Except SendResponse WireObject
  | MessageData.basic m =>
    let r := validateBasicMessage maxRecipients m
    if r.result = SendResult.Success then Except.ok (buildBasicWire m) else Except.error r
  | MessageData.bulk m =>
    let r := validateBulkMessage maxRecipients m
    if r.result = SendResult.Success then Except.ok (buildBulkWire m) else Except.error r

/-- Modelled from the spec: re-parsing a wire object back into the documented
basic-message schema (used for the round-trip property: the wire schema's
subject/from/to/body fields are read back off). -/
def parseWireBasic (w : WireObject) : BasicMessage :=
  { subject := w.subject
    fromAddress := w.fromAddress
    replyTo := w.replyTo
    toRecipients := w.toEntries
    cc := w.cc
    bcc := w.bcc
    textBody := w.textBody
    htmlBody := w.htmlBody
    apiTemplate := w.apiTemplate
    messageId := w.messageId
    mailingId := w.mailingId
    charSet := w.charSet }

/-- The response body schema consumed from the remote service. -/
structure ResponseBody where
  errorCode : String
  transactionReceipt : Option String := none
  messageResults : List String := []
  deriving DecidableEq, Repr

/-- An HTTP response: status code plus optional parsed JSON body. -/
structure HttpResponse where
  statusCode : Nat
  body : Option ResponseBody := none
  deriving DecidableEq, Repr

/-- Modelled from the spec: the mapping from a response errorCode string onto
the closed result enumeration, falling back to UnknownError for unrecognized
codes. -/
def errorCodeToResult (c : String) : SendResult :=
  if c = "Success" then SendResult.Success
  else if c = "Warning" then SendResult.Warning
  else if c = "InvalidAuthentication" then SendResult.InvalidAuthentication
  else if c = "AccountDisabled" then SendResult.AccountDisabled
  else if c = "TooManyRecipients" then SendResult.TooManyRecipients
  else if c = "EmailAddressValidationFailed" then SendResult.EmailAddressValidationFailed
  else if c = "RecipientValidationFailed" then SendResult.RecipientValidationFailed
  else if c = "MessageValidationFailed" then SendResult.MessageValidationFailed
  else if c = "ServerValidationFailed" then SendResult.ServerValidationFailed
  else if c = "InternalError" then SendResult.InternalError
  else SendResult.UnknownError

/-- Modelled from the spec: sendResponse.parse is not in the sources.  A
missing response (transport failure) or missing body yields UnknownError; a
200 with errorCode Success yields Success carrying the receipt and message
results; 401/403 yields InvalidAuthentication; otherwise the errorCode mapping
with UnknownError as fallback. -/
def parseResponse : Option HttpResponse → SendResponse
  | none => { result := SendResult.UnknownError }
  | some r =>
    match r.body with
    | none => { result := SendResult.UnknownError }
    | some b =>
      if r.statusCode = 200 && b.errorCode = "Success" then
        { result := SendResult.Success
          transactionReceipt := b.transactionReceipt
          messageResults := b.messageResults }
      else if r.statusCode = 401 || r.statusCode = 403 then
        { result := SendResult.InvalidAuthentication }
      else
        let rc := errorCodeToResult b.errorCode
        { result := if rc = SendResult.Success then SendResult.UnknownError else rc }

/-- A JavaScript transport error value: a string, or some other truthy value. -/
inductive JsErr
  | str (s : String)
  | other
  deriving DecidableEq, Repr

/-- One settlement attempt on the promise returned by `send`. -/
inductive Settle
  | resolve (r : SendResponse)
  | reject (r : SendResponse)
  deriving DecidableEq, Repr

/-- Trace of the request.post callback (socketlabsClient.js lines 122-142):
the settlement attempts it makes, in order, and how many times it hands the
raw response to sendResponse.parse.  Embedded from the source: on err it
builds an UnknownError response (responseMessage set when err is a string) and
rejects, then — with no return — falls through and unconditionally parses the
raw response, resolving on Success and rejecting otherwise. -/
structure CallbackTrace where
  settles : List Settle
  parseCalls : Nat
  deriving DecidableEq, Repr

/-- The request.post callback embedded from socketlabsClient.js lines 122-142. -/
def requestCallback (err : Option JsErr) (res : Option HttpResponse) : CallbackTrace :=
  let errSettles : List Settle :=
    match err with
    | none => []
    | some e =>
      let result : SendResponse :=
        match e with
        | JsErr.str s => { result := SendResult.UnknownError, responseMessage := some s }
        | JsErr.other => { result := SendResult.UnknownError }
      [Settle.reject result]
  let response := parseResponse res
  let tail :=
    if response.result = SendResult.Success then [Settle.resolve response]
    else [Settle.reject response]
  { settles := errSettles ++ tail, parseCalls := 1 }

/-- The JSON body of the POST issued by send (socketlabsClient.js lines
108-112). -/
structure PostBody where
  serverId : Option Int
  apiKey : Option String
  messages : List WireObject
  deriving DecidableEq, Repr

/-- The client's configuration fields set by the constructor. -/
structure Client where
  serverId : Option Int
  apiKey : Option String
  endpointUrl : String
  userAgent : String
  deriving DecidableEq, Repr

/-- The default Injection API endpoint (socketlabsClient.js line 63). -/
def defaultEndpointUrl : String := "https://inject.socketlabs.com/api/v1/email"

/-- The SocketLabsClient constructor embedded from socketlabsClient.js lines
40-73: stores serverId and apiKey as given, builds the user agent from the
package version and the node runtime version, and overrides the default
endpoint only when a non-empty endpointUrl is supplied. -/
def mkClient (serverId : Option Int) (apiKey : Option String)
    (version procVersion : String) (endpointUrl : Option String) : Client :=
  { serverId := serverId
    apiKey := apiKey
    userAgent := "SocketLabs-node/" ++ version ++ " (nodejs " ++ procVersion ++ ")"
    endpointUrl :=
      match endpointUrl with
      | some u => if u = "" then defaultEndpointUrl else u
      | none => defaultEndpointUrl }

/-- The settlement of the promise returned by factory.generateRequest, as the
facade observes it: fulfilled with a value that may be falsy (`none`), or
rejected with a structured error. -/
inductive FactoryResult
  | fulfilled (requestJson : Option WireObject)
  | rejected (e : SendResponse)
  deriving DecidableEq, Repr

/-- Trace of one send invocation: settlement attempts on the returned promise,
whether the factory was invoked, whether and with what body/headers the POST
was issued, how often the raw response was parsed, and the client state after
the call. -/
structure SendTrace where
  settles : List Settle
  factoryCalled : Bool
  postIssued : Bool
  postBody : Option PostBody
  userAgentHeader : Option String
  postUrl : Option String
  parseCalls : Nat
  clientAfter : Client
  deriving DecidableEq, Repr

/-- send embedded from socketlabsClient.js lines 95-150.  The behaviour of the
two external promises (factory.generateRequest and the transport callback's
arguments) is passed in as parameters; everything else follows the source:
validate credentials and reject before anything else on failure; on factory
rejection reject; on a falsy fulfilled value do nothing at all; otherwise POST
the body with the user-agent header and settle per the callback. -/
def send (c : Client) (fo : FactoryResult) (err : Option JsErr)
    (res : Option HttpResponse) : SendTrace :=
  let vr := validateCredentials c.serverId c.apiKey
  if vr.result ≠ SendResult.Success then
    { settles := [Settle.reject vr], factoryCalled := false, postIssued := false,
      postBody := none, userAgentHeader := none, postUrl := none, parseCalls := 0,
      clientAfter := c }
  else
    match fo with
    | FactoryResult.rejected e =>
      { settles := [Settle.reject e], factoryCalled := true, postIssued := false,
        postBody := none, userAgentHeader := none, postUrl := none, parseCalls := 0,
        clientAfter := c }
    | FactoryResult.fulfilled none =>
      { settles := [], factoryCalled := true, postIssued := false,
        postBody := none, userAgentHeader := none, postUrl := none, parseCalls := 0,
        clientAfter := c }
    | FactoryResult.fulfilled (some w) =>
      let cb := requestCallback err res
      { settles := cb.settles, factoryCalled := true, postIssued := true,
        postBody := some { serverId := c.serverId, apiKey := c.apiKey, messages := [w] },
        userAgentHeader := some c.userAgent, postUrl := some c.endpointUrl,
        parseCalls := cb.parseCalls, clientAfter := c }

/-- Promise semantics: of all settlement attempts only the first takes effect;
`none` means the promise never settles. -/
def promiseOutcome (t : SendTrace) : Option Settle := t.settles.head?

/-- Number of forward slashes in a string (used to analyse the shape of the
User-Agent header). -/
def slashCount (s : String) : Nat := s.data.count '/'

theorem slashCount_append (a b : String) :
    slashCount (a ++ b) = slashCount a + slashCount b := by
  simp [slashCount, String.data_append, List.count_append]

/-- Claim C9: for every send invocation, the client's configuration fields
serverId, apiKey, endpointUrl, and userAgent are unchanged after the call:
send reads but never writes them. -/
theorem send_preserves_client_config (c : Client) (fo : FactoryResult)
    (err : Option JsErr) (res : Option HttpResponse) :
    (send c fo err res).clientAfter.serverId = c.serverId ∧
    (send c fo err res).clientAfter.apiKey = c.apiKey ∧
    (send c fo err res).clientAfter.endpointUrl = c.endpointUrl ∧
    (send c fo err res).clientAfter.userAgent = c.userAgent := by
  refine ⟨?_, ?_, ?_, ?_⟩
  all_goals
    simp only [send]
    split
    · rfl
    · split <;> rfl

/-- Claim C10: if factory.generateRequest resolves with a falsy value, the
promise returned by send never settles (no resolve and no reject happens), and
no POST is issued. -/
theorem send_factory_falsy_never_settles (c : Client) (err : Option JsErr)
    (res : Option HttpResponse)
    (h : (validateCredentials c.serverId c.apiKey).result = SendResult.Success) :
    (send c (FactoryResult.fulfilled none) err res).settles = [] ∧
    promiseOutcome (send c (FactoryResult.fulfilled none) err res) = none ∧
    (send c (FactoryResult.fulfilled none) err res).postIssued = false := by
  refine ⟨?_, ?_, ?_⟩ <;> simp [send, promiseOutcome, h]

theorem send_factory_falsy_never_settles_witness :
    (send (mkClient (some 1) (some "key") "1.1.4" "v16.0.0" none)
        (FactoryResult.fulfilled none) none none).settles = [] ∧
    promiseOutcome (send (mkClient (some 1) (some "key") "1.1.4" "v16.0.0" none)
        (FactoryResult.fulfilled none) none none) = none ∧
    (send (mkClient (some 1) (some "key") "1.1.4" "v16.0.0" none)
        (FactoryResult.fulfilled none) none none).postIssued = false :=
  send_factory_falsy_never_settles
    (mkClient (some 1) (some "key") "1.1.4" "v16.0.0" none) none none (by decide)

/-- Claim C2: missing/non-numeric/non-positive serverId rejects with
InvalidServerId, and a valid serverId with a missing or empty apiKey rejects
with InvalidApiKey; in both cases before the factory is invoked, before any
wire request exists, and before any POST is issued. -/
theorem send_rejects_invalid_credentials_before_any_request (c : Client)
    (fo : FactoryResult) (err : Option JsErr) (res : Option HttpResponse) :
    ((c.serverId = none ∨ ∃ n, c.serverId = some n ∧ n ≤ 0) →
      (send c fo err res).settles
          = [Settle.reject { result := SendResult.InvalidServerId }] ∧
      (send c fo err res).factoryCalled = false ∧
      (send c fo err res).postIssued = false ∧
      (send c fo err res).postBody = none) ∧
    ((∃ n, c.serverId = some n ∧ 0 < n) → (c.apiKey = none ∨ c.apiKey = some "") →
      (send c fo err res).settles
          = [Settle.reject { result := SendResult.InvalidApiKey }] ∧
      (send c fo err res).factoryCalled = false ∧
      (send c fo err res).postIssued = false ∧
      (send c fo err res).postBody = none) := by
  constructor
  · rintro hcase
    rcases hcase with h | ⟨n, hn, hle⟩
    · simp [send, validateCredentials, h]
    · simp [send, validateCredentials, hn, hle]
  · rintro ⟨n, hn, hpos⟩ hk
    rcases hk with hk | hk <;>
      simp [send, validateCredentials, hn, not_le.mpr hpos, hk]

theorem send_rejects_invalid_credentials_witness :
    ((send ⟨some 0, some "x", "u", "a"⟩ (FactoryResult.fulfilled none) none none).settles
        = [Settle.reject { result := SendResult.InvalidServerId }] ∧
      (send ⟨some 0, some "x", "u", "a"⟩ (FactoryResult.fulfilled none) none none).factoryCalled = false ∧
      (send ⟨some 0, some "x", "u", "a"⟩ (FactoryResult.fulfilled none) none none).postIssued = false ∧
      (send ⟨some 0, some "x", "u", "a"⟩ (FactoryResult.fulfilled none) none none).postBody = none) ∧
    ((send ⟨some 123, some "", "u", "a"⟩ (FactoryResult.fulfilled none) none none).settles
        = [Settle.reject { result := SendResult.InvalidApiKey }] ∧
      (send ⟨some 123, some "", "u", "a"⟩ (FactoryResult.fulfilled none) none none).factoryCalled = false ∧
      (send ⟨some 123, some "", "u", "a"⟩ (FactoryResult.fulfilled none) none none).postIssued = false ∧
      (send ⟨some 123, some "", "u", "a"⟩ (FactoryResult.fulfilled none) none none).postBody = none) :=
  ⟨(send_rejects_invalid_credentials_before_any_request
      ⟨some 0, some "x", "u", "a"⟩ (FactoryResult.fulfilled none) none none).1
      (Or.inr ⟨0, rfl, by decide⟩),
   (send_rejects_invalid_credentials_before_any_request
      ⟨some 123, some "", "u", "a"⟩ (FactoryResult.fulfilled none) none none).2
      ⟨123, rfl, by decide⟩ (Or.inr rfl)⟩

/-- Claim C1: when the transport reports an error, the promise does settle
exactly once with an UnknownError outcome (the first reject wins, with
responseMessage set when the error is a string) — but, contrary to the claim,
the raw response IS additionally handed to the response parser on that path:
the source's error branch calls reject without returning, so it falls through
to sendResponse.parse(res) and makes a second (ineffective) settlement
attempt. -/
theorem transport_error_rejects_unknown_but_still_parses :
    (requestCallback (some (JsErr.str "connection refused")) none).parseCalls = 1 ∧
    (requestCallback (some (JsErr.str "connection refused")) none).settles =
      [Settle.reject { result := SendResult.UnknownError,
                       responseMessage := some "connection refused" },
       Settle.reject { result := SendResult.UnknownError }] ∧
    promiseOutcome
        (send ⟨some 1, some "k", "u", "a"⟩ (FactoryResult.fulfilled (some {}))
          (some (JsErr.str "connection refused")) none) =
      some (Settle.reject { result := SendResult.UnknownError,
                            responseMessage := some "connection refused" }) := by
  refine ⟨rfl, ?_, ?_⟩ <;> rfl

/-- Claim C5: when the transport returns a response (no transport error), send
makes exactly one settlement attempt, resolving with the parsed response
exactly when its result is Success and rejecting with it otherwise; the
settled value is a SendResponse, whose result field is drawn from the closed
SendResult enumeration by construction. -/
theorem send_settles_on_parsed_response (c : Client) (w : WireObject)
    (res : Option HttpResponse)
    (h : (validateCredentials c.serverId c.apiKey).result = SendResult.Success) :
    (send c (FactoryResult.fulfilled (some w)) none res).settles.length = 1 ∧
    ((parseResponse res).result = SendResult.Success →
      promiseOutcome (send c (FactoryResult.fulfilled (some w)) none res)
        = some (Settle.resolve (parseResponse res))) ∧
    ((parseResponse res).result ≠ SendResult.Success →
      promiseOutcome (send c (FactoryResult.fulfilled (some w)) none res)
        = some (Settle.reject (parseResponse res))) := by
  have h1 : (send c (FactoryResult.fulfilled (some w)) none res).settles =
      if (parseResponse res).result = SendResult.Success
        then [Settle.resolve (parseResponse res)]
        else [Settle.reject (parseResponse res)] := by
    simp [send, h, requestCallback]
  refine ⟨?_, ?_, ?_⟩
  · rw [h1]; split <;> rfl
  · intro hs; simp [promiseOutcome, h1, hs]
  · intro hs; simp [promiseOutcome, h1, hs]

theorem send_settles_on_parsed_response_witness :
    promiseOutcome (send ⟨some 1, some "k", "u", "a"⟩
        (FactoryResult.fulfilled (some {})) none
        (some ⟨200, some ⟨"Success", some "abc", []⟩⟩))
      = some (Settle.resolve { result := SendResult.Success,
                               transactionReceipt := some "abc" }) := by
  rw [(send_settles_on_parsed_response ⟨some 1, some "k", "u", "a"⟩ {}
        (some ⟨200, some ⟨"Success", some "abc", []⟩⟩) (by decide)).2.1 (by decide)]
  rfl

/-- Claim C6 (amended): for a send that reaches the transport, the POST body
is exactly the record with the client's serverId and apiKey and a messages
array holding exactly the one wire object, and the User-Agent header is
client-name/version followed by the runtime name and runtime version in
parentheses separated by a space (not a slash). -/
theorem send_post_shape_and_user_agent (serverId : Option Int)
    (apiKey : Option String) (version procVersion : String)
    (epu : Option String) (w : WireObject) (err : Option JsErr)
    (res : Option HttpResponse)
    (h : (validateCredentials serverId apiKey).result = SendResult.Success) :
    (send (mkClient serverId apiKey version procVersion epu)
        (FactoryResult.fulfilled (some w)) err res).postBody
      = some { serverId := serverId, apiKey := apiKey, messages := [w] } ∧
    ({ serverId := serverId, apiKey := apiKey, messages := [w] } : PostBody).messages.length = 1 ∧
    (send (mkClient serverId apiKey version procVersion epu)
        (FactoryResult.fulfilled (some w)) err res).userAgentHeader
      = some ("SocketLabs-node/" ++ version ++ " (nodejs " ++ procVersion ++ ")") := by
  refine ⟨?_, rfl, ?_⟩ <;> simp [send, mkClient, h]

theorem send_post_shape_and_user_agent_witness :
    (send (mkClient (some 1) (some "k") "1.1.4" "v16.14.0" none)
        (FactoryResult.fulfilled (some {})) none none).postBody
      = some { serverId := some 1, apiKey := some "k", messages := [{}] } ∧
    ({ serverId := some 1, apiKey := some "k", messages := [{}] } : PostBody).messages.length = 1 ∧
    (send (mkClient (some 1) (some "k") "1.1.4" "v16.14.0" none)
        (FactoryResult.fulfilled (some {})) none none).userAgentHeader
      = some ("SocketLabs-node/" ++ "1.1.4" ++ " (nodejs " ++ "v16.14.0" ++ ")") :=
  send_post_shape_and_user_agent (some 1) (some "k") "1.1.4" "v16.14.0" none {}
    none none (by decide)

/-- Claim C6, counterexample to the claim as stated: the User-Agent header the
source builds is "SocketLabs-node/1.1.4 (nodejs v16.14.0)" — the runtime and
its version inside the parentheses are separated by a space, so the header is
not of the claimed form client-name/version (runtime/runtime-version): that
form contains at least two forward slashes, while the actual header contains
exactly one. -/
theorem user_agent_not_of_runtime_slash_form :
    (send (mkClient (some 1) (some "k") "1.1.4" "v16.14.0" none)
        (FactoryResult.fulfilled (some {})) none none).userAgentHeader
      = some "SocketLabs-node/1.1.4 (nodejs v16.14.0)" ∧
    ¬ ∃ cn v rt rv : String,
        "SocketLabs-node/1.1.4 (nodejs v16.14.0)"
          = cn ++ "/" ++ v ++ " (" ++ rt ++ "/" ++ rv ++ ")" := by
  constructor
  · rfl
  · rintro ⟨cn, v, rt, rv, hform⟩
    have hc := congrArg slashCount hform
    have h0 : slashCount "SocketLabs-node/1.1.4 (nodejs v16.14.0)" = 1 := by rfl
    have h1 : slashCount "/" = 1 := rfl
    have h2 : slashCount " (" = 0 := rfl
    have h3 : slashCount ")" = 0 := rfl
    simp only [slashCount_append, h0, h1, h2, h3] at hc
    omega

/-- Claim C3 (amended): for every messageData of either shape whose From
address is present and well-formed, an empty recipient list makes
validateMessage return RecipientValidationFailed. -/
theorem empty_recipients_fail_recipient_validation (maxRecipients : Nat)
    (mb : BasicMessage) (mk : BulkMessage)
    (hbf : fromAddressValid mb.fromAddress = true) (hbt : mb.toRecipients = [])
    (hkf : fromAddressValid mk.fromAddress = true) (hkt : mk.toRecipients = []) :
    (validateMessage maxRecipients (MessageData.basic mb)).result
        = SendResult.RecipientValidationFailed ∧
    (validateMessage maxRecipients (MessageData.bulk mk)).result
        = SendResult.RecipientValidationFailed := by
  constructor <;>
    simp [validateMessage, validateBasicMessage, validateBulkMessage,
      hbf, hbt, hkf, hkt]

theorem empty_recipients_fail_recipient_validation_witness :
    (validateMessage 50 (MessageData.basic
        { fromAddress := some ⟨"a@x.com", none⟩, subject := "Hi",
          toRecipients := [], textBody := "body" })).result
      = SendResult.RecipientValidationFailed ∧
    (validateMessage 50 (MessageData.bulk
        { fromAddress := some ⟨"a@x.com", none⟩, subject := "Hi",
          toRecipients := [], textBody := "body" })).result
      = SendResult.RecipientValidationFailed :=
  empty_recipients_fail_recipient_validation 50
    { fromAddress := some ⟨"a@x.com", none⟩, subject := "Hi",
      toRecipients := [], textBody := "body" }
    { fromAddress := some ⟨"a@x.com", none⟩, subject := "Hi",
      toRecipients := [], textBody := "body" }
    (by decide) rfl (by decide) rfl

/-- Claim C3, counterexample to the claim as stated: validation short-circuits
on the first failure in rule order, and the From check precedes the recipient
check, so a messageData with an empty recipient list but a missing From
address returns EmailAddressValidationFailed, not RecipientValidationFailed. -/
theorem empty_recipients_with_missing_from_not_recipient_failure :
    (validateMessage 50 (MessageData.basic
        { fromAddress := none, subject := "Hi", toRecipients := [],
          textBody := "body" })).result
      = SendResult.EmailAddressValidationFailed ∧
    (validateMessage 50 (MessageData.basic
        { fromAddress := none, subject := "Hi", toRecipients := [],
          textBody := "body" })).result
      ≠ SendResult.RecipientValidationFailed := by
  exact ⟨rfl, by decide⟩

/-- Claim C4 (amended): for every messageData of either shape that passes the
From-address and recipient checks, an empty Subject — or both bodies empty —
makes validateMessage return MessageValidationFailed. -/
theorem empty_subject_or_bodies_fail_message_validation (maxRecipients : Nat)
    (mb : BasicMessage) (mk : BulkMessage)
    (hbf : fromAddressValid mb.fromAddress = true)
    (hbr : (mb.toRecipients.isEmpty || mb.toRecipients.any (fun e => !(emailValid e))
        || decide (mb.toRecipients.length > maxRecipients)) = false)
    (hbm : mb.subject = "" ∨ (mb.textBody = "" ∧ mb.htmlBody = ""))
    (hkf : fromAddressValid mk.fromAddress = true)
    (hkr : (mk.toRecipients.isEmpty || mk.toRecipients.any (fun r => !(emailValid r.email))
        || decide (mk.toRecipients.length > maxRecipients)) = false)
    (hkm : mk.subject = "" ∨ (mk.textBody = "" ∧ mk.htmlBody = "")) :
    (validateMessage maxRecipients (MessageData.basic mb)).result
        = SendResult.MessageValidationFailed ∧
    (validateMessage maxRecipients (MessageData.bulk mk)).result
        = SendResult.MessageValidationFailed := by
  constructor
  · rcases hbm with hs | ⟨ht, hh⟩
    · simp [validateMessage, validateBasicMessage, hbf, hbr, hs]
    · simp [validateMessage, validateBasicMessage, hbf, hbr, ht, hh]
  · rcases hkm with hs | ⟨ht, hh⟩
    · simp [validateMessage, validateBulkMessage, hkf, hkr, hs]
    · simp [validateMessage, validateBulkMessage, hkf, hkr, ht, hh]

theorem empty_subject_or_bodies_fail_message_validation_witness :
    (validateMessage 50 (MessageData.basic
        { fromAddress := some ⟨"a@x.com", none⟩, subject := "",
          toRecipients := [⟨"b@x.com", none⟩], textBody := "body" })).result
      = SendResult.MessageValidationFailed ∧
    (validateMessage 50 (MessageData.bulk
        { fromAddress := some ⟨"a@x.com", none⟩, subject := "Hi",
          toRecipients := [⟨⟨"b@x.com", none⟩, []⟩], textBody := "",
          htmlBody := "" })).result
      = SendResult.MessageValidationFailed :=
  empty_subject_or_bodies_fail_message_validation 50
    { fromAddress := some ⟨"a@x.com", none⟩, subject := "",
      toRecipients := [⟨"b@x.com", none⟩], textBody := "body" }
    { fromAddress := some ⟨"a@x.com", none⟩, subject := "Hi",
      toRecipients := [⟨⟨"b@x.com", none⟩, []⟩], textBody := "", htmlBody := "" }
    (by decide) (by decide) (Or.inl rfl)
    (by decide) (by decide) (Or.inr ⟨rfl, rfl⟩)

/-- Claim C4, counterexample to the claim as stated: the recipient check
precedes the Subject/body check, so a messageData with an empty Subject but
also an empty recipient list returns RecipientValidationFailed, not
MessageValidationFailed. -/
theorem empty_subject_with_empty_recipients_not_message_failure :
    (validateMessage 50 (MessageData.basic
        { fromAddress := some ⟨"a@x.com", none⟩, subject := "",
          toRecipients := [], textBody := "body" })).result
      = SendResult.RecipientValidationFailed ∧
    (validateMessage 50 (MessageData.basic
        { fromAddress := some ⟨"a@x.com", none⟩, subject := "",
          toRecipients := [], textBody := "body" })).result
      ≠ SendResult.MessageValidationFailed := by
  exact ⟨by decide, by decide⟩

/-- Claim C7: for every valid bulk message with N recipients, generateRequest
produces the wire object whose mergeData array has length N and is positionally
the recipients' merge-data lists (so its i-th entry belongs to the i-th `to`
entry), and whose global merge data is a separate top-level block. -/
theorem bulk_merge_data_aligned (maxRecipients : Nat) (m : BulkMessage)
    (h : (validateBulkMessage maxRecipients m).result = SendResult.Success) :
    generateRequest maxRecipients (MessageData.bulk m)
        = Except.ok (buildBulkWire m) ∧
    (buildBulkWire m).mergeData.length = m.toRecipients.length ∧
    (buildBulkWire m).mergeData = m.toRecipients.map BulkRecipient.mergeData ∧
    (buildBulkWire m).toEntries = m.toRecipients.map BulkRecipient.email ∧
    (buildBulkWire m).globalMergeData = m.globalMergeData := by
  refine ⟨?_, ?_, rfl, rfl, rfl⟩
  · simp [generateRequest, h]
  · simp [buildBulkWire]

theorem bulk_merge_data_aligned_witness :
    generateRequest 50 (MessageData.bulk
        { fromAddress := some ⟨"a@x.com", none⟩, subject := "Hi",
          toRecipients := [⟨⟨"b@x.com", none⟩, [⟨"name", "B"⟩]⟩,
                           ⟨⟨"c@x.com", none⟩, [⟨"name", "C"⟩]⟩],
          textBody := "body", globalMergeData := [⟨"year", "2020"⟩] })
      = Except.ok (buildBulkWire
        { fromAddress := some ⟨"a@x.com", none⟩, subject := "Hi",
          toRecipients := [⟨⟨"b@x.com", none⟩, [⟨"name", "B"⟩]⟩,
                           ⟨⟨"c@x.com", none⟩, [⟨"name", "C"⟩]⟩],
          textBody := "body", globalMergeData := [⟨"year", "2020"⟩] }) ∧
    (buildBulkWire
        { fromAddress := some ⟨"a@x.com", none⟩, subject := "Hi",
          toRecipients := [⟨⟨"b@x.com", none⟩, [⟨"name", "B"⟩]⟩,
                           ⟨⟨"c@x.com", none⟩, [⟨"name", "C"⟩]⟩],
          textBody := "body", globalMergeData := [⟨"year", "2020"⟩] }).mergeData.length
      = ([⟨⟨"b@x.com", none⟩, [⟨"name", "B"⟩]⟩,
          ⟨⟨"c@x.com", none⟩, [⟨"name", "C"⟩]⟩] : List BulkRecipient).length ∧
    (buildBulkWire
        { fromAddress := some ⟨"a@x.com", none⟩, subject := "Hi",
          toRecipients := [⟨⟨"b@x.com", none⟩, [⟨"name", "B"⟩]⟩,
                           ⟨⟨"c@x.com", none⟩, [⟨"name", "C"⟩]⟩],
          textBody := "body", globalMergeData := [⟨"year", "2020"⟩] }).mergeData
      = ([⟨⟨"b@x.com", none⟩, [⟨"name", "B"⟩]⟩,
          ⟨⟨"c@x.com", none⟩, [⟨"name", "C"⟩]⟩] : List BulkRecipient).map BulkRecipient.mergeData ∧
    (buildBulkWire
        { fromAddress := some ⟨"a@x.com", none⟩, subject := "Hi",
          toRecipients := [⟨⟨"b@x.com", none⟩, [⟨"name", "B"⟩]⟩,
                           ⟨⟨"c@x.com", none⟩, [⟨"name", "C"⟩]⟩],
          textBody := "body", globalMergeData := [⟨"year", "2020"⟩] }).toEntries
      = ([⟨⟨"b@x.com", none⟩, [⟨"name", "B"⟩]⟩,
          ⟨⟨"c@x.com", none⟩, [⟨"name", "C"⟩]⟩] : List BulkRecipient).map BulkRecipient.email ∧
    (buildBulkWire
        { fromAddress := some ⟨"a@x.com", none⟩, subject := "Hi",
          toRecipients := [⟨⟨"b@x.com", none⟩, [⟨"name", "B"⟩]⟩,
                           ⟨⟨"c@x.com", none⟩, [⟨"name", "C"⟩]⟩],
          textBody := "body", globalMergeData := [⟨"year", "2020"⟩] }).globalMergeData
      = [⟨"year", "2020"⟩] :=
  bulk_merge_data_aligned 50
    { fromAddress := some ⟨"a@x.com", none⟩, subject := "Hi",
      toRecipients := [⟨⟨"b@x.com", none⟩, [⟨"name", "B"⟩]⟩,
                       ⟨⟨"c@x.com", none⟩, [⟨"name", "C"⟩]⟩],
      textBody := "body", globalMergeData := [⟨"year", "2020"⟩] }
    (by decide)

/-- Claim C8: for every valid BasicMessage, generateRequest succeeds with the
wire object built from it, and re-parsing that wire object recovers the
original subject, from, to, and body fields exactly (serialization is lossless
for the documented schema). -/
theorem basic_wire_round_trip (maxRecipients : Nat) (m : BasicMessage)
    (h : (validateBasicMessage maxRecipients m).result = SendResult.Success) :
    generateRequest maxRecipients (MessageData.basic m)
        = Except.ok (buildBasicWire m) ∧
    (parseWireBasic (buildBasicWire m)).subject = m.subject ∧
    (parseWireBasic (buildBasicWire m)).fromAddress = m.fromAddress ∧
    (parseWireBasic (buildBasicWire m)).toRecipients = m.toRecipients ∧
    (parseWireBasic (buildBasicWire m)).textBody = m.textBody ∧
    (parseWireBasic (buildBasicWire m)).htmlBody = m.htmlBody :=
  ⟨by simp [generateRequest, h], rfl, rfl, rfl, rfl, rfl⟩

theorem basic_wire_round_trip_witness :
    generateRequest 50 (MessageData.basic
        { fromAddress := some ⟨"a@x.com", none⟩, subject := "Hi",
          toRecipients := [⟨"b@x.com", none⟩], textBody := "body" })
      = Except.ok (buildBasicWire
        { fromAddress := some ⟨"a@x.com", none⟩, subject := "Hi",
          toRecipients := [⟨"b@x.com", none⟩], textBody := "body" }) ∧
    (parseWireBasic (buildBasicWire
        { fromAddress := some ⟨"a@x.com", none⟩, subject := "Hi",
          toRecipients := [⟨"b@x.com", none⟩], textBody := "body" })).subject = "Hi" ∧
    (parseWireBasic (buildBasicWire
        { fromAddress := some ⟨"a@x.com", none⟩, subject := "Hi",
          toRecipients := [⟨"b@x.com", none⟩], textBody := "body" })).fromAddress
      = some ⟨"a@x.com", none⟩ ∧
    (parseWireBasic (buildBasicWire
        { fromAddress := some ⟨"a@x.com", none⟩, subject := "Hi",
          toRecipients := [⟨"b@x.com", none⟩], textBody := "body" })).toRecipients
      = [⟨"b@x.com", none⟩] ∧
    (parseWireBasic (buildBasicWire
        { fromAddress := some ⟨"a@x.com", none⟩, subject := "Hi",
          toRecipients := [⟨"b@x.com", none⟩], textBody := "body" })).textBody = "body" ∧
    (parseWireBasic (buildBasicWire
        { fromAddress := some ⟨"a@x.com", none⟩, subject := "Hi",
          toRecipients := [⟨"b@x.com", none⟩], textBody := "body" })).htmlBody = "" :=
  basic_wire_round_trip 50
    { fromAddress := some ⟨"a@x.com", none⟩, subject := "Hi",
      toRecipients := [⟨"b@x.com", none⟩], textBody := "body" }
    (by decide)

end SocketLabs
